import Mathlib

/-!
Verification development for the `image_pdf_ocr` OCR module
(`src/image_pdf_ocr/ocr.py`).

The Python module is shallowly embedded: pandas cell values become the
`Cell` inductive (a numeric value, a float NaN, a non-numeric string, or a
missing value — `None` / absent column entry), float arithmetic is carried
out over `ℚ` (all constants of the module — 65, 50, 1.5, 0.8, 180 — are
exactly representable in binary floating point, and the module performs no
operation that loses exactness on them), and the external engines
(pytesseract, PIL, PyMuPDF) are parameters: an `OcrEngine` record supplies
`image_to_data`, the RGB conversion and the image preprocessing chain,
and a `render` oracle stands for `page.insert_text`, which may succeed,
raise `RuntimeError`, or raise any other exception.
-/

namespace ImagePdfOcr

/-- A pandas cell as observed by this module: a numeric value (anything
`pd.to_numeric` parses and `float()` accepts), a float NaN, a non-numeric
string (`float()` raises `ValueError`, `pd.to_numeric(errors="coerce")`
yields NaN), or a missing value (`None`: `float()` raises `TypeError`). -/
inductive Cell where
  | num (q : ℚ)
  | nan
  | str (s : String)
  | missing
deriving DecidableEq, Repr

/-- One row of the `pytesseract.image_to_data` DataFrame, restricted to the
columns this module reads.  `text` is `some s` for a string cell and `none`
for a float NaN cell (pandas represents absent text as NaN). -/
structure Row where
  text : Option String
  left : Cell
  top : Cell
  width : Cell
  height : Cell
  conf : Cell
deriving DecidableEq, Repr

/-- An OCR result DataFrame: its rows plus the column-presence facts the
module tests with `"conf" in frame.columns` etc.  A column absent from the
frame is additionally represented by `Cell.missing` in each row (what
`row.get` returns for it). -/
structure Frame where
  hasLeft : Bool
  hasTop : Bool
  hasWidth : Bool
  hasHeight : Bool
  hasConf : Bool
  hasText : Bool
  rows : List Row
deriving DecidableEq, Repr

/-- `pd.to_numeric(cell, errors="coerce")`: numeric values pass through,
everything else coerces to NaN. -/
def to_numeric : Cell → Cell
  | Cell.num q => Cell.num q
  | _ => Cell.nan

/-- `float(cell)`: `none` = an exception (`TypeError` / `ValueError`),
`some none` = the float NaN, `some (some q)` = a finite value. -/
def pyFloat : Cell → Option (Option ℚ)
  | Cell.num q => some (some q)
  | Cell.nan => some none
  | Cell.str _ => none
  | Cell.missing => none

/-- Pandas `series >= threshold` on a coerced cell: NaN compares `False`. -/
def confPass (c : Cell) (t : ℚ) : Bool :=
  match to_numeric c with
  | Cell.num q => decide (t ≤ q)
  | _ => false

/-- Division of a coerced cell by a scalar (`column / scale`): NaN stays NaN. -/
def cellDiv (c : Cell) (s : ℚ) : Cell :=
  match c with
  | Cell.num q => Cell.num (q / s)
  | c => c

/-- Multiplication of a cell by a scalar (used to state the rescale
round-trip): NaN stays NaN. -/
def cellMul (c : Cell) (s : ℚ) : Cell :=
  match c with
  | Cell.num q => Cell.num (q * s)
  | c => c

/-- `_AVERAGE_CONFIDENCE_THRESHOLD`: `float(os.environ.get("OCR_CONFIDENCE_THRESHOLD", "65"))`,
default value. -/
def defaultConfidenceThreshold : ℚ := 65

/-- `_TEXT_RENDER_CONFIDENCE_THRESHOLD = 50.0`. -/
def textRenderThreshold : ℚ := 50

/-- `_UPSCALE_FACTOR = 1.5`. -/
def upscaleFactor : ℚ := 3 / 2

/-- `_compute_average_confidence`: mean of the coerced `conf` values that
are not NaN and are `>= 0`; `0.0` when the column is absent or no valid
value exists. -/
def compute_average_confidence (frame : Frame) : ℚ :=
  if frame.hasConf = false then 0
  else
    let confidences := frame.rows.map (fun r => to_numeric r.conf)
    let valid := confidences.filterMap (fun c =>
      match c with
      | Cell.num q => if 0 ≤ q then some q else none
      | _ => none)
    if valid.isEmpty then 0
    else valid.sum / valid.length

/-- The coercion pass of `_prepare_frame`: `pd.to_numeric` on each of the
columns `left`, `top`, `width`, `height`, `conf` that is present. -/
def coerceRow (fr : Frame) (r : Row) : Row :=
  { r with
    left := if fr.hasLeft then to_numeric r.left else r.left
    top := if fr.hasTop then to_numeric r.top else r.top
    width := if fr.hasWidth then to_numeric r.width else r.width
    height := if fr.hasHeight then to_numeric r.height else r.height
    conf := if fr.hasConf then to_numeric r.conf else r.conf }

/-- The rescale pass of `_prepare_frame`: divide each present coordinate
column by `scale` (`conf` is not rescaled). -/
def scaleRow (fr : Frame) (scale : ℚ) (r : Row) : Row :=
  { r with
    left := if fr.hasLeft then cellDiv r.left scale else r.left
    top := if fr.hasTop then cellDiv r.top scale else r.top
    width := if fr.hasWidth then cellDiv r.width scale else r.width
    height := if fr.hasHeight then cellDiv r.height scale else r.height }

/-- `_prepare_frame(frame, scale)`: coerce the numeric columns, then, when
`scale != 1.0`, divide the coordinate columns by `scale`. -/
def prepare_frame (frame : Frame) (scale : ℚ) : Frame :=
  let prepared := { frame with rows := frame.rows.map (coerceRow frame) }
  if scale ≠ 1 then
    { prepared with rows := prepared.rows.map (scaleRow frame scale) }
  else prepared

/-- `AdaptiveOCRResult`. -/
structure AdaptiveOCRResult (I : Type) where
  frame : Frame
  average_confidence : ℚ
  image_for_string : I
  used_preprocessing : Bool
deriving DecidableEq

/-- The external engines consumed by `_perform_adaptive_ocr`, over an
abstract image type `I`: `image.convert("RGB")`, `pytesseract.image_to_data`
(as the OCR oracle), and the PIL image chain of `_preprocess_for_ocr`
(grayscale → LANCZOS upscale → autocontrast → binarize at 180), whose
pixel content is external to this module. -/
structure OcrEngine (I : Type) where
  convertRGB : I → I
  image_to_data : I → Frame
  binarize : I → I

/-- `_preprocess_for_ocr`: applies the external image chain and returns the
binary image together with the scale factor used, which is always
`_UPSCALE_FACTOR` (the code takes the `scale != 1.0` resize branch and
returns that same constant). -/
def preprocess_for_ocr {I : Type} (E : OcrEngine I) (image : I) : I × ℚ :=
  (E.binarize image, upscaleFactor)

/-- `_perform_adaptive_ocr`.  The second component instruments the number
of `_preprocess_for_ocr` invocations (the spec's spy/counter on the
preprocessing step); the Python function performs exactly the calls this
definition counts. -/
def perform_adaptive_ocr {I : Type} (E : OcrEngine I) (threshold : ℚ)
    (image : I) : AdaptiveOCRResult I × Nat :=
  let base_image := E.convertRGB image
  let base_frame_raw := E.image_to_data base_image
  let base_average := compute_average_confidence base_frame_raw
  let base_frame := prepare_frame base_frame_raw 1
  let best_result : AdaptiveOCRResult I :=
    { frame := base_frame
      average_confidence := base_average
      image_for_string := base_image
      used_preprocessing := false }
  if threshold ≤ base_average then (best_result, 0)
  else
    let pre := preprocess_for_ocr E base_image
    let processed_frame_raw := E.image_to_data pre.1
    let processed_average := compute_average_confidence processed_frame_raw
    let processed_frame := prepare_frame processed_frame_raw pre.2
    if best_result.average_confidence < processed_average then
      ({ frame := processed_frame
         average_confidence := processed_average
         image_for_string := pre.1
         used_preprocessing := true }, 1)
    else (best_result, 1)

/-- `text.fillna("")`: a NaN text cell becomes the empty string. -/
def fillnaText (r : Row) : Row :=
  { r with text := some (r.text.getD "") }

/-- `_filter_frame_by_confidence(frame, threshold)`: empty frame when the
`conf` column is absent; otherwise keep the rows whose coerced confidence
is `>= threshold`, then `fillna("")` the `text` column when it is present
or create it filled with `""` when it is not. -/
def filter_frame_by_confidence (frame : Frame) (threshold : ℚ) : Frame :=
  if frame.hasConf = false then { frame with rows := [] }
  else
    let filtered := frame.rows.filter (fun r => confPass r.conf threshold)
    if frame.hasText then { frame with rows := filtered.map fillnaText }
    else
      { frame with
        rows := filtered.map (fun r => { r with text := some "" })
        hasText := true }

/-- `_extract_coordinates(row)`: `float()` on `left`, `top`, `height`
(`TypeError`/`ValueError` yields the `None` triple), then the NaN check. -/
def extract_coordinates (r : Row) : Option (ℚ × ℚ × ℚ) :=
  match pyFloat r.left, pyFloat r.top, pyFloat r.height with
  | some a, some b, some c =>
    match a, b, c with
    | some x, some y, some h => some (x, y, h)
    | _, _, _ => none
  | _, _, _ => none

/-- One `page.insert_text` call as issued by `create_searchable_pdf`:
position `(x, y)`, the text, `fontsize`, `render_mode`. -/
structure Placement where
  x : ℚ
  y : ℚ
  text : String
  fontsize : ℚ
  render_mode : Nat
deriving DecidableEq, Repr

/-- The possible outcomes of a `page.insert_text` call: success,
`RuntimeError` (caught by the word loop), or any other exception
(uncaught by the word loop). -/
inductive RenderOutcome where
  | ok
  | runtimeError
  | otherError
deriving DecidableEq, Repr

/-- Python `str.strip()`, as a structurally recursive definition (so that
concrete word-loop runs evaluate): drop whitespace from both ends. -/
def pyStrip (s : String) : String :=
  String.mk
    (((s.data.dropWhile Char.isWhitespace).reverse.dropWhile
      Char.isWhitespace).reverse)

/-- `str(row.get("text", "")).strip()`: a NaN text cell prints as `"nan"`
(only reachable on a frame that did not pass `_filter_frame_by_confidence`,
which fills NaN text with `""`). -/
def textOf (r : Row) : String :=
  pyStrip
    (match r.text with
     | some s => s
     | none => "nan")

/-- One iteration of the word loop of `create_searchable_pdf` up to the
`insert_text` call: `none` when the row is skipped (`continue`) because the
stripped text is empty or a coordinate is missing/invalid/NaN; otherwise
the placement `((x, y + h), text, fontsize=h*0.8, render_mode=3)` that
`insert_text` is invoked with. -/
def attemptOf (r : Row) : Option Placement :=
  let text := textOf r
  if text = "" then none
  else
    match extract_coordinates r with
    | none => none
    | some (x, y, h) =>
      some { x := x, y := y + h, text := text
             fontsize := h * (4 / 5), render_mode := 3 }

/-- The word loop of `create_searchable_pdf` over the filtered rows.
Returns `(placements, renderCalls, aborted)`: the successful `insert_text`
calls, every `insert_text` call issued (successful or not), and whether a
non-`RuntimeError` exception escaped the loop (to be wrapped into
`OCRConversionError` by the page-level handler). -/
def composeWords (render : Placement → RenderOutcome) :
    List Row → List Placement × List Placement × Bool
  | [] => ([], [], false)
  | r :: rest =>
    match attemptOf r with
    | none => composeWords render rest
    | some p =>
      match render p with
      | RenderOutcome.ok =>
        let t := composeWords render rest
        (p :: t.1, p :: t.2.1, t.2.2)
      | RenderOutcome.runtimeError =>
        let t := composeWords render rest
        (t.1, p :: t.2.1, t.2.2)
      | RenderOutcome.otherError => ([], [p], true)

/-- The per-page overlay composition of `create_searchable_pdf`: filter the
OCR frame at `_TEXT_RENDER_CONFIDENCE_THRESHOLD` and run the word loop. -/
def composePage (render : Placement → RenderOutcome) (frame : Frame) :
    List Placement × List Placement × Bool :=
  composeWords render (filter_frame_by_confidence frame textRenderThreshold).rows

/-- A Python float as produced by the progress estimator: finite, infinite
(`float("inf")`), or NaN. -/
inductive PyF where
  | fin (q : ℚ)
  | inf
  | nan
deriving DecidableEq, Repr

/-- Multiplication of such a float by a non-negative integer
(`average_per_page * remaining_pages`): `inf * 0 = nan`, `inf * n = inf`
for positive `n`. -/
def pyMulNat : PyF → Nat → PyF
  | PyF.fin q, n => PyF.fin (q * n)
  | PyF.inf, 0 => PyF.nan
  | PyF.inf, _ + 1 => PyF.inf
  | PyF.nan, _ => PyF.nan

/-- Python `round()` on a finite value: round half to even. -/
def pyRound (q : ℚ) : ℤ :=
  let f := Rat.floor q
  let frac := q - f
  if frac < 1 / 2 then f
  else if 1 / 2 < frac then f + 1
  else if f % 2 = 0 then f else f + 1

/-- `"{n:02d}"`: decimal, zero-padded to width 2. -/
def pad2 (n : Nat) : String :=
  if n < 10 then "0" ++ Nat.repr n else Nat.repr n

/-- `_format_duration(seconds)`: the sentinel for a non-finite value,
otherwise `max(0, int(round(seconds)))` split by two `divmod(…, 60)` and
rendered `HH:MM:SS`, the hours field omitted when zero. -/
def format_duration : PyF → String
  | PyF.fin seconds =>
    let total_seconds := (max 0 (pyRound seconds)).toNat
    let minutes := total_seconds / 60
    let sec := total_seconds % 60
    let hours := minutes / 60
    let minutes := minutes % 60
    if hours > 0 then pad2 hours ++ ":" ++ pad2 minutes ++ ":" ++ pad2 sec
    else pad2 minutes ++ ":" ++ pad2 sec
  | _ => "不明"

/-- `_build_progress_message(current, total, start_time)`.  `elapsed` is the
externally measured `time.perf_counter() - start_time` (non-negative wall
clock); the division guard replaces `elapsed / 0` by `float("inf")`, and
`max(total - current, 0)` is `Nat` subtraction. -/
def build_progress_message (current total : Nat) (elapsed : ℚ) : String :=
  if total ≤ 0 then "進捗: ページ数が不明です"
  else
    let average_per_page : PyF :=
      if current ≠ 0 then PyF.fin (elapsed / current) else PyF.inf
    let remaining_pages := total - current
    let remaining_estimate := pyMulNat average_per_page remaining_pages
    let remaining_text := format_duration remaining_estimate
    Nat.repr current ++ "/" ++ Nat.repr total ++
      "ページ完了　残り推定時間: " ++ remaining_text

/-- The informational message both orchestrators emit for a zero-page
input document. -/
def zeroPageMessage : String := "ページが存在しないPDFです。処理を終了します。"

/-- Observable outputs of one `create_searchable_pdf` page loop run:
progress messages dispatched, pages added to the output document, OCR
engine invocations (`pytesseract` calls), and whether a page-level
exception was wrapped into `OCRConversionError`. -/
structure CreateOutputs where
  messages : List String
  outputPages : Nat
  ocrInvocations : Nat
  failed : Bool
deriving DecidableEq, Repr

/-- The page loop of `create_searchable_pdf` from page index `idx` (1-based,
as `enumerate(input_doc, start=1)`).  Each iteration rasterizes the page
(external), runs `_perform_adaptive_ocr` (1 + preprocessed `image_to_data`
calls), creates one output page, runs the word loop, and dispatches one
progress message; a non-`RuntimeError` escaping the word loop aborts the
remaining pages.  `elapsedAt i` is the wall clock elapsed when page `i`
finishes. -/
def createPages {I : Type} (E : OcrEngine I) (threshold : ℚ)
    (render : Placement → RenderOutcome) (elapsedAt : Nat → ℚ)
    (total : Nat) : Nat → List I → CreateOutputs
  | _, [] => ⟨[], 0, 0, false⟩
  | idx, page :: rest =>
    let step := perform_adaptive_ocr E threshold page
    let comp := composePage render step.1.frame
    if comp.2.2 then ⟨[], 1, 1 + step.2, true⟩
    else
      let t := createPages E threshold render elapsedAt total (idx + 1) rest
      ⟨build_progress_message idx total (elapsedAt idx) :: t.messages,
       1 + t.outputPages, 1 + step.2 + t.ocrInvocations, t.failed⟩

/-- The page-processing phase of `create_searchable_pdf` (after the input
checks, font resolution and document open): the zero-page informational
message when `page_count == 0`, then the page loop. -/
def create_searchable_run {I : Type} (E : OcrEngine I) (threshold : ℚ)
    (render : Placement → RenderOutcome) (elapsedAt : Nat → ℚ)
    (pages : List I) : CreateOutputs :=
  let total := pages.length
  let base := createPages E threshold render elapsedAt total 1 pages
  if total = 0 then { base with messages := zeroPageMessage :: base.messages }
  else base

/-- Observable outputs of one `extract_text_from_image_pdf` run. -/
structure ExtractOutputs where
  messages : List String
  text : String
  ocrInvocations : Nat
deriving DecidableEq, Repr

/-- `"\n".join(texts).strip() + "\n"`. -/
def joinPageTexts (texts : List String) : String :=
  pyStrip (String.intercalate "\n" texts) ++ "\n"

/-- The page-processing phase of `extract_text_from_image_pdf`: the
zero-page branch returns the string `"\n"` after the informational message;
otherwise each page runs `_perform_adaptive_ocr` plus one
`pytesseract.image_to_string` call (`recognizeText`) on the chosen image,
appends a `--- ページ N ---` block, and dispatches one progress message. -/
def extract_text_run {I : Type} (E : OcrEngine I) (threshold : ℚ)
    (recognizeText : I → String) (elapsedAt : Nat → ℚ)
    (pages : List I) : ExtractOutputs :=
  let total := pages.length
  if total = 0 then ⟨[zeroPageMessage], "\n", 0⟩
  else
    let texts := pages.mapIdx (fun i page =>
      let res := perform_adaptive_ocr E threshold page
      let page_text := recognizeText res.1.image_for_string
      let idx := i + 1
      "--- ページ " ++ Nat.repr idx ++ " ---\n" ++ pyStrip page_text ++ "\n")
    let messages := (List.range total).map (fun i =>
      let idx := i + 1
      build_progress_message idx total (elapsedAt idx))
    let calls := (pages.map (fun page =>
      2 + (perform_adaptive_ocr E threshold page).2)).sum
    ⟨messages, joinPageTexts texts, calls⟩

/-- Modelled from the spec: terminal states of the page pipeline
orchestrator (§4.5): `Completed`, `Cancelled`, `Failed`; `Cancelled` is
"distinct from an error outcome". -/
inductive RunOutcome where
  | completed
  | cancelled
  | failed
deriving DecidableEq, Repr

/-- Modelled from the spec: one orchestrator run with a cancellation
token, as observed through its OCR calls, its document handles, and its
terminal outcome. -/
structure RunTrace where
  ocrCalls : Nat
  docOpen : Bool
  outcome : RunOutcome
deriving DecidableEq, Repr

/-- Modelled from the spec: the page loop of `create_searchable_pdf` /
`extract_text_from_image_pdf` with a caller-supplied `cancel_event` — the
parameter the package `__init__` and the desktop app use but whose
implementation is absent from this snapshot of `ocr.py`.  Spec §4.5: the
token is "polled by the orchestrator between pages"; "on each page
boundary, if a cancellation token is set, the run stops immediately".
`cancelSet i` is the token value observed at the boundary before page
`i`'s OCR call (0-based); `done` pages have been OCR'd so far. -/
def pollPages (cancelSet : Nat → Bool) : Nat → Nat → Nat × RunOutcome
  | done, 0 => (done, RunOutcome.completed)
  | done, rem + 1 =>
    if cancelSet done then (done, RunOutcome.cancelled)
    else pollPages cancelSet (done + 1) rem

/-- Modelled from the spec: a full document run under a cancellation
token; document handles are released (`finally: close()`) on every path,
and the terminal outcome is that of the page loop. -/
def runWithCancellation (cancelSet : Nat → Bool) (totalPages : Nat) :
    RunTrace :=
  let r := pollPages cancelSet 0 totalPages
  { ocrCalls := r.1, docOpen := false, outcome := r.2 }

/-- A valid confidence value of a row, as the spec defines it: the coerced
`conf` when it is numeric and non-negative. -/
def validConf (r : Row) : Option ℚ :=
  match to_numeric r.conf with
  | Cell.num q => if 0 ≤ q then some q else none
  | _ => none

/-- The spec's qualifying predicate for the overlay: confidence at least
the render threshold and non-empty stripped text (after `fillna`). -/
def qualifies (r : Row) : Bool :=
  confPass r.conf textRenderThreshold && (textOf (fillnaText r) != "")

/-- Concrete fixture: a row with the given confidence cell and text. -/
def sampleRow (confv : Cell) (textv : Option String) : Row :=
  { text := textv, left := Cell.num 10, top := Cell.num 20
    width := Cell.num 40, height := Cell.num 15, conf := confv }

/-- Concrete fixture: a frame with all columns present. -/
def frameOf (rs : List Row) : Frame :=
  { hasLeft := true, hasTop := true, hasWidth := true, hasHeight := true
    hasConf := true, hasText := true, rows := rs }

def highFrame : Frame := frameOf [sampleRow (Cell.num 90) (some "語")]

def lowFrame : Frame := frameOf [sampleRow (Cell.num 30) (some "語")]

def emptyFrame : Frame := frameOf []

/-- Concrete fixture engine over `Bool` images: `false` is the original
raster, `true` the preprocessed image; OCR returns `baseF` on the original
and `procF` on the preprocessed image. -/
def testEngine (baseF procF : Frame) : OcrEngine Bool :=
  { convertRGB := id
    image_to_data := fun b => if b then procF else baseF
    binarize := fun _ => true }

/-- Concrete fixture: a rendering layer that always succeeds. -/
def renderOk : Placement → RenderOutcome := fun _ => RenderOutcome.ok

/-- Concrete fixture: a rendering layer that raises a non-`RuntimeError`
exception on every placement. -/
def renderOther : Placement → RenderOutcome := fun _ => RenderOutcome.otherError

/-- Concrete fixture: a rendering layer that raises `RuntimeError` on
every placement. -/
def renderRuntime : Placement → RenderOutcome := fun _ => RenderOutcome.runtimeError

/-- Concrete fixture: `sampleRow` after `_prepare_frame` at scale `3/2`. -/
def preparedSampleRow : Row :=
  { text := some "語", left := Cell.num (20 / 3), top := Cell.num (40 / 3)
    width := Cell.num (80 / 3), height := Cell.num 10, conf := Cell.num 30 }

/-- Concrete fixture: a row whose `left` cell is missing. -/
def badRow : Row :=
  { text := some "語", left := Cell.missing, top := Cell.num 20
    width := Cell.num 40, height := Cell.num 15, conf := Cell.num 90 }

/-- Concrete fixture: one word exactly at the render threshold and one a
unit below it. -/
def mixedFrame : Frame :=
  frameOf [sampleRow (Cell.num 50) (some "合計"), sampleRow (Cell.num 49) (some "語")]

/-- Concrete fixture: a cancellation token that is observed set at every
page boundary from the second one on (set while page 1 was processing). -/
def tokenAfterFirstPage : Nat → Bool := fun n => decide (1 ≤ n)

/-! ## Theorems -/

/-- C1: for every raster image on which the raw OCR pass's average
confidence is at least the configured threshold, `_perform_adaptive_ocr`
returns the raw pass (`used_preprocessing = false`) and the preprocessing
step is invoked zero times. -/
theorem adaptive_high_confidence_raw_pass {I : Type} (E : OcrEngine I)
    (threshold : ℚ) (image : I)
    (h : threshold ≤
      compute_average_confidence (E.image_to_data (E.convertRGB image))) :
    perform_adaptive_ocr E threshold image =
      ({ frame := prepare_frame (E.image_to_data (E.convertRGB image)) 1
         average_confidence :=
           compute_average_confidence (E.image_to_data (E.convertRGB image))
         image_for_string := E.convertRGB image
         used_preprocessing := false }, 0) := by
  simp only [perform_adaptive_ocr, if_pos h]

/-- Witness for C1: a raw pass of average confidence 90 at the default
threshold 65 is returned unmodified with no preprocessing invocation. -/
theorem adaptive_high_confidence_raw_pass_witness :
    defaultConfidenceThreshold ≤
      compute_average_confidence
        ((testEngine highFrame lowFrame).image_to_data
          ((testEngine highFrame lowFrame).convertRGB false)) ∧
    perform_adaptive_ocr (testEngine highFrame lowFrame)
        defaultConfidenceThreshold false =
      ({ frame := prepare_frame
           ((testEngine highFrame lowFrame).image_to_data
             ((testEngine highFrame lowFrame).convertRGB false)) 1
         average_confidence :=
           compute_average_confidence
             ((testEngine highFrame lowFrame).image_to_data
               ((testEngine highFrame lowFrame).convertRGB false))
         image_for_string := (testEngine highFrame lowFrame).convertRGB false
         used_preprocessing := false }, 0) :=
  have h : defaultConfidenceThreshold ≤
      compute_average_confidence
        ((testEngine highFrame lowFrame).image_to_data
          ((testEngine highFrame lowFrame).convertRGB false)) := by
    simp [testEngine, compute_average_confidence, highFrame, frameOf,
      sampleRow, to_numeric, defaultConfidenceThreshold]
    norm_num
  ⟨h, adaptive_high_confidence_raw_pass (testEngine highFrame lowFrame)
    defaultConfidenceThreshold false h⟩

/-- C3: when the raw pass's average confidence is below the threshold, the
preprocessed pass is returned exactly when its average confidence is
strictly higher; on a tie or a lower preprocessed average the original
(non-preprocessed) pass is returned. -/
theorem adaptive_below_threshold_strictly_better {I : Type} (E : OcrEngine I)
    (threshold : ℚ) (image : I)
    (h : compute_average_confidence (E.image_to_data (E.convertRGB image)) <
      threshold) :
    (perform_adaptive_ocr E threshold image =
        ({ frame := prepare_frame
             (E.image_to_data (E.binarize (E.convertRGB image))) upscaleFactor
           average_confidence := compute_average_confidence
             (E.image_to_data (E.binarize (E.convertRGB image)))
           image_for_string := E.binarize (E.convertRGB image)
           used_preprocessing := true }, 1)
      ↔ compute_average_confidence (E.image_to_data (E.convertRGB image)) <
          compute_average_confidence
            (E.image_to_data (E.binarize (E.convertRGB image))))
    ∧ (compute_average_confidence
          (E.image_to_data (E.binarize (E.convertRGB image))) ≤
        compute_average_confidence (E.image_to_data (E.convertRGB image)) →
      perform_adaptive_ocr E threshold image =
        ({ frame := prepare_frame (E.image_to_data (E.convertRGB image)) 1
           average_confidence :=
             compute_average_confidence (E.image_to_data (E.convertRGB image))
           image_for_string := E.convertRGB image
           used_preprocessing := false }, 1)) := by
  have hn : ¬ threshold ≤
      compute_average_confidence (E.image_to_data (E.convertRGB image)) :=
    not_le.mpr h
  by_cases hlt : compute_average_confidence (E.image_to_data (E.convertRGB image)) <
      compute_average_confidence (E.image_to_data (E.binarize (E.convertRGB image)))
  · constructor
    · simp only [perform_adaptive_ocr, preprocess_for_ocr, if_neg hn, if_pos hlt]
      simp [hlt]
    · intro hle
      exact absurd hlt (not_lt.mpr hle)
  · constructor
    · simp only [perform_adaptive_ocr, preprocess_for_ocr, if_neg hn, if_neg hlt]
      constructor
      · intro he
        exact absurd (congrArg (fun r => r.1.used_preprocessing) he) (by simp)
      · intro hc
        exact absurd hc hlt
    · intro _
      simp only [perform_adaptive_ocr, preprocess_for_ocr, if_neg hn, if_neg hlt]

/-- Witness for C3: a raw pass averaging 30 against a preprocessed pass
averaging 90 is below the default threshold, and the strictly better
preprocessed pass is returned. -/
theorem adaptive_below_threshold_strictly_better_witness :
    compute_average_confidence
        ((testEngine lowFrame highFrame).image_to_data
          ((testEngine lowFrame highFrame).convertRGB false)) <
      defaultConfidenceThreshold ∧
    (perform_adaptive_ocr (testEngine lowFrame highFrame)
        defaultConfidenceThreshold false =
      ({ frame := prepare_frame
           ((testEngine lowFrame highFrame).image_to_data
             ((testEngine lowFrame highFrame).binarize
               ((testEngine lowFrame highFrame).convertRGB false))) upscaleFactor
         average_confidence := compute_average_confidence
           ((testEngine lowFrame highFrame).image_to_data
             ((testEngine lowFrame highFrame).binarize
               ((testEngine lowFrame highFrame).convertRGB false)))
         image_for_string := (testEngine lowFrame highFrame).binarize
           ((testEngine lowFrame highFrame).convertRGB false)
         used_preprocessing := true }, 1)
      ↔ compute_average_confidence
          ((testEngine lowFrame highFrame).image_to_data
            ((testEngine lowFrame highFrame).convertRGB false)) <
          compute_average_confidence
            ((testEngine lowFrame highFrame).image_to_data
              ((testEngine lowFrame highFrame).binarize
                ((testEngine lowFrame highFrame).convertRGB false)))) :=
  have h : compute_average_confidence
      ((testEngine lowFrame highFrame).image_to_data
        ((testEngine lowFrame highFrame).convertRGB false)) <
      defaultConfidenceThreshold := by
    simp [testEngine, compute_average_confidence, lowFrame, frameOf,
      sampleRow, to_numeric, defaultConfidenceThreshold]
    norm_num
  ⟨h, (adaptive_below_threshold_strictly_better
    (testEngine lowFrame highFrame) defaultConfidenceThreshold false h).1⟩

/-- Helper: on a frame with a `conf` column, `_compute_average_confidence`
is the guarded mean of the rows' valid confidences. -/
theorem compute_average_eq_validConf (fr : Frame) (hConf : fr.hasConf = true) :
    compute_average_confidence fr =
      if (fr.rows.filterMap validConf).isEmpty then 0
      else (fr.rows.filterMap validConf).sum /
        (fr.rows.filterMap validConf).length := by
  have hcomp : (fr.rows.map (fun r => to_numeric r.conf)).filterMap (fun c =>
      match c with
      | Cell.num q => if 0 ≤ q then some q else none
      | _ => none) = fr.rows.filterMap validConf := by
    rw [List.filterMap_map]
    rfl
  unfold compute_average_confidence
  rw [hConf]
  simp only [Bool.true_eq_false, if_false, hcomp]

/-- Helper: a frame with no rows has average confidence `0`. -/
theorem compute_average_nil (fr : Frame) (h : fr.rows = []) :
    compute_average_confidence fr = 0 := by
  unfold compute_average_confidence
  rw [h]
  cases hc : fr.hasConf <;> simp

/-- C5: the computed average confidence is the arithmetic mean of the
confidence values over exactly the tokens with a valid (numeric,
non-negative) confidence, `0` when no such token exists; in particular an
image yielding zero tokens has average confidence `0`, which triggers the
preprocessing branch at the default threshold. -/
theorem average_confidence_is_mean {I : Type} (fr : Frame)
    (hConf : fr.hasConf = true) (E : OcrEngine I) (image : I)
    (hzero : (E.image_to_data (E.convertRGB image)).rows = []) :
    (fr.rows.filterMap validConf ≠ [] →
      compute_average_confidence fr =
        (fr.rows.filterMap validConf).sum /
          (fr.rows.filterMap validConf).length)
    ∧ (fr.rows.filterMap validConf = [] → compute_average_confidence fr = 0)
    ∧ (fr.rows = [] → compute_average_confidence fr = 0)
    ∧ compute_average_confidence (E.image_to_data (E.convertRGB image)) = 0
    ∧ (perform_adaptive_ocr E defaultConfidenceThreshold image).2 = 1 := by
  have key := compute_average_eq_validConf fr hConf
  have h0 : compute_average_confidence (E.image_to_data (E.convertRGB image)) = 0 :=
    compute_average_nil _ hzero
  refine ⟨?_, ?_, fun h => compute_average_nil fr h, h0, ?_⟩
  · intro hne
    rw [key, if_neg (by simpa [List.isEmpty_iff] using hne)]
  · intro he
    rw [key, if_pos (by simp [he])]
  · simp only [perform_adaptive_ocr]
    rw [h0, if_neg (by norm_num [defaultConfidenceThreshold])]
    split <;> rfl

/-- Witness for C5: a one-token frame at confidence 90 has mean 90, and an
image yielding zero tokens has average `0` and triggers preprocessing. -/
theorem average_confidence_is_mean_witness :
    highFrame.hasConf = true ∧
    ((testEngine emptyFrame lowFrame).image_to_data
      ((testEngine emptyFrame lowFrame).convertRGB false)).rows = [] ∧
    ((highFrame.rows.filterMap validConf ≠ [] →
      compute_average_confidence highFrame =
        (highFrame.rows.filterMap validConf).sum /
          (highFrame.rows.filterMap validConf).length)
    ∧ (highFrame.rows.filterMap validConf = [] →
      compute_average_confidence highFrame = 0)
    ∧ (highFrame.rows = [] → compute_average_confidence highFrame = 0)
    ∧ compute_average_confidence
        ((testEngine emptyFrame lowFrame).image_to_data
          ((testEngine emptyFrame lowFrame).convertRGB false)) = 0
    ∧ (perform_adaptive_ocr (testEngine emptyFrame lowFrame)
        defaultConfidenceThreshold false).2 = 1) :=
  ⟨rfl, rfl, average_confidence_is_mean highFrame rfl
    (testEngine emptyFrame lowFrame) false rfl⟩

/-- Helper: multiplying a coerced cell by `1` changes nothing. -/
theorem cellMul_one_to_numeric (c : Cell) :
    cellMul (to_numeric c) 1 = to_numeric c := by
  cases c <;> simp [to_numeric, cellMul]

/-- Helper: dividing a coerced cell by a non-zero scale and multiplying
back recovers the coerced cell. -/
theorem cellMul_cellDiv_to_numeric (c : Cell) (s : ℚ) (hs : s ≠ 0) :
    cellMul (cellDiv (to_numeric c) s) s = to_numeric c := by
  cases c <;> simp [to_numeric, cellDiv, cellMul, div_mul_cancel₀, hs]

/-- C2: every coordinate of a `_prepare_frame`d row, multiplied by the
recorded scale factor, equals the coerced coordinate the OCR engine
returned on that image — `_prepare_frame` divides every present coordinate
column by the scale factor. -/
theorem prepare_frame_rescale_roundtrip (fr : Frame) (scale : ℚ)
    (hs : scale ≠ 0) (i : Nat) (r p : Row) (hr : fr.rows[i]? = some r)
    (hp : (prepare_frame fr scale).rows[i]? = some p) :
    (fr.hasLeft = true → cellMul p.left scale = to_numeric r.left)
    ∧ (fr.hasTop = true → cellMul p.top scale = to_numeric r.top)
    ∧ (fr.hasWidth = true → cellMul p.width scale = to_numeric r.width)
    ∧ (fr.hasHeight = true → cellMul p.height scale = to_numeric r.height) := by
  by_cases h1 : scale = 1
  · subst h1
    have hrows : (prepare_frame fr 1).rows = fr.rows.map (coerceRow fr) := by
      unfold prepare_frame
      simp
    rw [hrows, List.getElem?_map, hr] at hp
    injection hp with hp
    subst hp
    refine ⟨?_, ?_, ?_, ?_⟩ <;> intro hc <;>
      simp [coerceRow, hc, cellMul_one_to_numeric]
  · have hrows : (prepare_frame fr scale).rows =
        (fr.rows.map (coerceRow fr)).map (scaleRow fr scale) := by
      unfold prepare_frame
      simp [h1]
    rw [hrows, List.getElem?_map, List.getElem?_map, hr] at hp
    injection hp with hp
    subst hp
    refine ⟨?_, ?_, ?_, ?_⟩ <;> intro hc <;>
      simp [scaleRow, coerceRow, hc, cellMul_cellDiv_to_numeric _ _ hs]

/-- Witness for C2: the fixture row at scale `3/2` (the preprocessing
upscale factor) round-trips: each prepared coordinate times `3/2` is the
engine coordinate. -/
theorem prepare_frame_rescale_roundtrip_witness :
    ((3 : ℚ) / 2 ≠ 0) ∧
    lowFrame.rows[0]? = some (sampleRow (Cell.num 30) (some "語")) ∧
    (prepare_frame lowFrame ((3 : ℚ) / 2)).rows[0]? = some preparedSampleRow ∧
    ((lowFrame.hasLeft = true →
        cellMul preparedSampleRow.left ((3 : ℚ) / 2) =
          to_numeric (sampleRow (Cell.num 30) (some "語")).left)
    ∧ (lowFrame.hasTop = true →
        cellMul preparedSampleRow.top ((3 : ℚ) / 2) =
          to_numeric (sampleRow (Cell.num 30) (some "語")).top)
    ∧ (lowFrame.hasWidth = true →
        cellMul preparedSampleRow.width ((3 : ℚ) / 2) =
          to_numeric (sampleRow (Cell.num 30) (some "語")).width)
    ∧ (lowFrame.hasHeight = true →
        cellMul preparedSampleRow.height ((3 : ℚ) / 2) =
          to_numeric (sampleRow (Cell.num 30) (some "語")).height)) :=
  have hs : (3 : ℚ) / 2 ≠ 0 := by norm_num
  have hp : (prepare_frame lowFrame ((3 : ℚ) / 2)).rows[0]? =
      some preparedSampleRow := by
    norm_num [prepare_frame, lowFrame, frameOf, sampleRow, scaleRow,
      coerceRow, to_numeric, cellDiv, preparedSampleRow]
  ⟨hs, rfl, hp, prepare_frame_rescale_roundtrip lowFrame ((3 : ℚ) / 2) hs 0
    (sampleRow (Cell.num 30) (some "語")) preparedSampleRow rfl hp⟩

/-- Helper: a word whose `insert_text` call is attempted has non-empty
stripped text. -/
theorem attempt_isSome_text (r : Row) (h : (attemptOf r).isSome = true) :
    textOf r ≠ "" := by
  intro ht
  rw [attemptOf] at h
  simp [ht] at h

/-- Helper: the shape of an attempted placement. -/
theorem attempt_some_spec (r : Row) (p : Placement)
    (h : attemptOf r = some p) :
    textOf r ≠ "" ∧ ∃ x y hh : ℚ, extract_coordinates r = some (x, y, hh) ∧
      p = { x := x, y := y + hh, text := textOf r
            fontsize := hh * (4 / 5), render_mode := 3 } := by
  rw [attemptOf] at h
  by_cases ht : textOf r = ""
  · simp [ht] at h
  · rw [if_neg ht] at h
    cases hext : extract_coordinates r with
    | none => rw [hext] at h; cases h
    | some t =>
      obtain ⟨x, y, hh⟩ := t
      rw [hext] at h
      injection h with h
      exact ⟨ht, x, y, hh, rfl, h.symm⟩

/-- Helper: every successful placement of the word loop arises from a row
of the input whose attempt it is, with a succeeding render call. -/
theorem composeWords_placements_mem (render : Placement → RenderOutcome)
    (rs : List Row) (p : Placement) (hp : p ∈ (composeWords render rs).1) :
    ∃ r ∈ rs, attemptOf r = some p ∧ render p = RenderOutcome.ok := by
  induction rs with
  | nil => simp [composeWords] at hp
  | cons r rest ih =>
    simp only [composeWords] at hp
    split at hp
    · obtain ⟨r', hr', h1, h2⟩ := ih hp
      exact ⟨r', List.mem_cons_of_mem _ hr', h1, h2⟩
    · rename_i q ha
      split at hp
      · rename_i hrq
        rcases List.mem_cons.mp hp with h | h
        · subst h
          exact ⟨r, List.mem_cons_self r rest, ha, hrq⟩
        · obtain ⟨r', hr', h1, h2⟩ := ih h
          exact ⟨r', List.mem_cons_of_mem _ hr', h1, h2⟩
      · obtain ⟨r', hr', h1, h2⟩ := ih hp
        exact ⟨r', List.mem_cons_of_mem _ hr', h1, h2⟩
      · simp at hp

/-- Helper: every `insert_text` call issued by the word loop (successful
or not) is the attempted placement of some row of the input. -/
theorem composeWords_calls_mem (render : Placement → RenderOutcome)
    (rs : List Row) (p : Placement) (hp : p ∈ (composeWords render rs).2.1) :
    ∃ r ∈ rs, attemptOf r = some p := by
  induction rs with
  | nil => simp [composeWords] at hp
  | cons r rest ih =>
    simp only [composeWords] at hp
    split at hp
    · obtain ⟨r', hr', h1⟩ := ih hp
      exact ⟨r', List.mem_cons_of_mem _ hr', h1⟩
    · rename_i q ha
      split at hp
      · rcases List.mem_cons.mp hp with h | h
        · subst h
          exact ⟨r, List.mem_cons_self r rest, ha⟩
        · obtain ⟨r', hr', h1⟩ := ih h
          exact ⟨r', List.mem_cons_of_mem _ hr', h1⟩
      · rcases List.mem_cons.mp hp with h | h
        · subst h
          exact ⟨r, List.mem_cons_self r rest, ha⟩
        · obtain ⟨r', hr', h1⟩ := ih h
          exact ⟨r', List.mem_cons_of_mem _ hr', h1⟩
      · simp only [List.mem_singleton] at hp
        subst hp
        exact ⟨r, List.mem_cons_self r rest, ha⟩

/-- Helper: the number of successful placements is at most the number of
rows with an attempted placement. -/
theorem composeWords_length_le (render : Placement → RenderOutcome)
    (rs : List Row) :
    (composeWords render rs).1.length ≤
      rs.countP (fun r => (attemptOf r).isSome) := by
  induction rs with
  | nil => simp [composeWords]
  | cons r rest ih =>
    simp only [composeWords]
    cases ha : attemptOf r with
    | none =>
      simp [List.countP_cons, ha]
      omega
    | some q =>
      cases hrq : render q with
      | ok =>
        simp [List.countP_cons, ha, hrq]
        omega
      | runtimeError =>
        simp [List.countP_cons, ha, hrq]
        omega
      | otherError => simp [List.countP_cons, ha, hrq]

/-- Helper: the filtered frame's rows on a frame with `conf` and `text`
columns. -/
theorem filter_frame_rows (fr : Frame) (hConf : fr.hasConf = true)
    (hText : fr.hasText = true) :
    (filter_frame_by_confidence fr textRenderThreshold).rows =
      (fr.rows.filter (fun r => confPass r.conf textRenderThreshold)).map
        fillnaText := by
  unfold filter_frame_by_confidence
  rw [hConf, hText]
  simp

/-- C4: on every page exactly the words whose confidence passes the render
threshold 50 (inclusive boundary, a coerced confidence compares by
`50 ≤ conf`) and whose stripped text is non-empty are attempted as
invisible text; every successful placement starts at `(left, top + height)`
with font size `height * 0.8` and render mode 3, and the number of
placements is at most the number of qualifying words. -/
theorem overlay_places_qualifying_words (fr : Frame)
    (render : Placement → RenderOutcome)
    (hConf : fr.hasConf = true) (hText : fr.hasText = true) :
    (filter_frame_by_confidence fr textRenderThreshold).rows =
      (fr.rows.filter (fun r => confPass r.conf textRenderThreshold)).map
        fillnaText
    ∧ (∀ q : ℚ, confPass (Cell.num q) textRenderThreshold =
        decide (textRenderThreshold ≤ q))
    ∧ (∀ p ∈ (composePage render fr).1, ∃ r ∈ fr.rows,
        confPass r.conf textRenderThreshold = true ∧
        textOf (fillnaText r) ≠ "" ∧
        attemptOf (fillnaText r) = some p ∧
        ∃ x y hh : ℚ,
          extract_coordinates (fillnaText r) = some (x, y, hh) ∧
          p.x = x ∧ p.y = y + hh ∧ p.fontsize = hh * (4 / 5) ∧
          p.render_mode = 3 ∧ p.text = textOf (fillnaText r))
    ∧ (composePage render fr).1.length ≤ fr.rows.countP qualifies := by
  have hfil := filter_frame_rows fr hConf hText
  refine ⟨hfil, fun q => rfl, ?_, ?_⟩
  · intro p hp
    unfold composePage at hp
    rw [hfil] at hp
    obtain ⟨r', hr', hatt, _⟩ := composeWords_placements_mem render _ p hp
    obtain ⟨r, hrmem, rfl⟩ := List.mem_map.mp hr'
    have hmem := List.mem_filter.mp hrmem
    obtain ⟨htext, x, y, hh, hext, rfl⟩ := attempt_some_spec _ _ hatt
    exact ⟨r, hmem.1, hmem.2, htext, hatt, x, y, hh, hext,
      rfl, rfl, rfl, rfl, rfl⟩
  · unfold composePage
    rw [hfil]
    refine le_trans (composeWords_length_le render _) ?_
    rw [List.countP_map, List.countP_filter]
    refine List.countP_mono_left ?_
    intro r _ h
    simp only [Function.comp, Bool.and_eq_true] at h
    have htext := attempt_isSome_text _ h.1
    simp [qualifies, Bool.and_eq_true, h.2, bne_iff_ne, htext]

/-- Witness for C4: a frame with one word at confidence exactly 50 and one
at 49; the filter keeps exactly the former. -/
theorem overlay_places_qualifying_words_witness :
    mixedFrame.hasConf = true ∧ mixedFrame.hasText = true ∧
    ((filter_frame_by_confidence mixedFrame textRenderThreshold).rows =
      (mixedFrame.rows.filter
        (fun r => confPass r.conf textRenderThreshold)).map fillnaText
    ∧ (∀ q : ℚ, confPass (Cell.num q) textRenderThreshold =
        decide (textRenderThreshold ≤ q))
    ∧ (∀ p ∈ (composePage renderOk mixedFrame).1, ∃ r ∈ mixedFrame.rows,
        confPass r.conf textRenderThreshold = true ∧
        textOf (fillnaText r) ≠ "" ∧
        attemptOf (fillnaText r) = some p ∧
        ∃ x y hh : ℚ,
          extract_coordinates (fillnaText r) = some (x, y, hh) ∧
          p.x = x ∧ p.y = y + hh ∧ p.fontsize = hh * (4 / 5) ∧
          p.render_mode = 3 ∧ p.text = textOf (fillnaText r))
    ∧ (composePage renderOk mixedFrame).1.length ≤
        mixedFrame.rows.countP qualifies) :=
  ⟨rfl, rfl, overlay_places_qualifying_words mixedFrame renderOk rfl rfl⟩

/-- Counterexample to C7 as stated: the word loop catches only
`RuntimeError`; a rendering-layer exception of any other type while placing
a single word aborts the page (escapes to the page-level
`OCRConversionError` wrapper) instead of being swallowed. -/
theorem compose_page_aborts_on_non_runtime_error :
    (composePage renderOther highFrame).2.2 = true := rfl

/-- C7 (amended): every `RuntimeError` raised by the rendering layer while
placing a single word is swallowed and that word skipped; under renderers
that raise nothing worse than `RuntimeError`, the word loop never aborts,
places exactly the attempted words whose render succeeded, and issues
exactly the attempted calls. -/
theorem composeWords_swallows_runtime_errors
    (render : Placement → RenderOutcome) (rs : List Row)
    (h : ∀ p, render p ≠ RenderOutcome.otherError) :
    composeWords render rs =
      (rs.filterMap (fun r => (attemptOf r).bind
        (fun p => if render p = RenderOutcome.ok then some p else none)),
       rs.filterMap attemptOf, false) := by
  induction rs with
  | nil => rfl
  | cons r rest ih =>
    simp only [composeWords, List.filterMap_cons]
    cases ha : attemptOf r with
    | none => simpa [ha] using ih
    | some q =>
      cases hrq : render q with
      | ok => simp [ha, hrq, ih, Option.bind]
      | runtimeError => simp [ha, hrq, ih, Option.bind]
      | otherError => exact absurd hrq (h q)

/-- Witness for C7 (amended): a renderer that raises `RuntimeError` on
every word skips the word without aborting. -/
theorem composeWords_swallows_runtime_errors_witness :
    (∀ p, renderRuntime p ≠ RenderOutcome.otherError) ∧
    composeWords renderRuntime [sampleRow (Cell.num 90) (some "語")] =
      ([sampleRow (Cell.num 90) (some "語")].filterMap (fun r =>
        (attemptOf r).bind
          (fun p => if renderRuntime p = RenderOutcome.ok then some p
            else none)),
       [sampleRow (Cell.num 90) (some "語")].filterMap attemptOf, false) :=
  have h : ∀ p, renderRuntime p ≠ RenderOutcome.otherError :=
    fun _ hp => RenderOutcome.noConfusion hp
  ⟨h, composeWords_swallows_runtime_errors renderRuntime
    [sampleRow (Cell.num 90) (some "語")] h⟩

/-- Helper: `float()` of a cell yields a finite value exactly on numeric
cells. -/
theorem pyFloat_num (c : Cell) (q : ℚ) (h : pyFloat c = some (some q)) :
    c = Cell.num q := by
  cases c with
  | num a => simp [pyFloat] at h; rw [h]
  | nan => simp [pyFloat] at h
  | str s => simp [pyFloat] at h
  | missing => simp [pyFloat] at h

/-- Helper: `_extract_coordinates` succeeds only on numeric, non-NaN
`left`, `top` and `height` cells, returning exactly their values. -/
theorem extract_some_cells (r : Row) (x y hh : ℚ)
    (h : extract_coordinates r = some (x, y, hh)) :
    r.left = Cell.num x ∧ r.top = Cell.num y ∧ r.height = Cell.num hh := by
  unfold extract_coordinates at h
  split at h
  · rename_i a b c ha hb hc
    split at h
    · rename_i x' y' h' hax hby hch
      simp only [Option.some.injEq, Prod.mk.injEq] at h
      obtain ⟨h1, h2, h3⟩ := h
      subst h1
      subst h2
      subst h3
      exact ⟨pyFloat_num _ _ ha, pyFloat_num _ _ hb, pyFloat_num _ _ hc⟩
    · cases h
  · cases h

/-- C10: a word whose `left`, `top` or `height` cell is missing,
non-numeric or NaN is silently skipped before placement; every placement
the word loop attempts carries the finite rational coordinates of numeric
cells (position `(left, top + height)`, font size `height * 0.8`), and
every `insert_text` call issued during page composition is such an
attempted placement. -/
theorem placement_coordinates_guarded :
    (∀ r : Row,
      ((∀ q : ℚ, r.left ≠ Cell.num q) ∨ (∀ q : ℚ, r.top ≠ Cell.num q) ∨
        (∀ q : ℚ, r.height ≠ Cell.num q)) → attemptOf r = none)
    ∧ (∀ (r : Row) (p : Placement), attemptOf r = some p →
        ∃ x y hh : ℚ, r.left = Cell.num x ∧ r.top = Cell.num y ∧
          r.height = Cell.num hh ∧ p.x = x ∧ p.y = y + hh ∧
          p.fontsize = hh * (4 / 5))
    ∧ (∀ (fr : Frame) (render : Placement → RenderOutcome) (p : Placement),
        p ∈ (composePage render fr).2.1 →
        ∃ r ∈ (filter_frame_by_confidence fr textRenderThreshold).rows,
          attemptOf r = some p) := by
  refine ⟨?_, ?_, ?_⟩
  · intro r hbad
    cases hA : attemptOf r with
    | none => rfl
    | some p =>
      obtain ⟨_, x, y, hh, hext, _⟩ := attempt_some_spec r p hA
      obtain ⟨hl, ht, hh2⟩ := extract_some_cells r x y hh hext
      rcases hbad with hb | hb | hb
      · exact absurd hl (hb x)
      · exact absurd ht (hb y)
      · exact absurd hh2 (hb hh)
  · intro r p hA
    obtain ⟨_, x, y, hh, hext, rfl⟩ := attempt_some_spec r p hA
    obtain ⟨hl, ht, hh2⟩ := extract_some_cells r x y hh hext
    exact ⟨x, y, hh, hl, ht, hh2, rfl, rfl, rfl⟩
  · intro fr render p hp
    unfold composePage at hp
    exact composeWords_calls_mem render _ p hp

/-- Witness for C10: the fixture row with a missing `left` cell is skipped
(no `insert_text` call is attempted for it). -/
theorem placement_coordinates_guarded_witness :
    attemptOf badRow = none :=
  placement_coordinates_guarded.1 badRow
    (Or.inl fun q hq => by simp [badRow] at hq)

/-- Counterexample to C8 as stated: on a zero-page document
`extract_text_from_image_pdf` returns the single-newline string `"\n"`,
not the empty string. -/
theorem zero_page_extract_returns_newline :
    (extract_text_run (testEngine emptyFrame emptyFrame) 65 (fun _ => "")
      (fun _ => 0) ([] : List Bool)).text = "\n" ∧
    (extract_text_run (testEngine emptyFrame emptyFrame) 65 (fun _ => "")
      (fun _ => 0) ([] : List Bool)).text ≠ "" :=
  ⟨rfl, by decide⟩

/-- C8 (amended): a zero-page input short-circuits: `create_searchable_pdf`
produces a zero-page output document and `extract_text_from_image_pdf`
returns the single-newline string `"\n"` (not the empty string), each
after emitting exactly one informational progress message and without any
OCR engine invocation. -/
theorem zero_page_short_circuit {I : Type} (E : OcrEngine I) (threshold : ℚ)
    (render : Placement → RenderOutcome) (recognizeText : I → String)
    (elapsedAt : Nat → ℚ) :
    create_searchable_run E threshold render elapsedAt ([] : List I) =
      ⟨[zeroPageMessage], 0, 0, false⟩ ∧
    extract_text_run E threshold recognizeText elapsedAt ([] : List I) =
      ⟨[zeroPageMessage], "\n", 0⟩ :=
  ⟨rfl, rfl⟩

/-- C9: the remaining-time estimate shown is `(elapsed / currentPage) ×
remainingPages`; `currentPage = 0` makes the average infinite and yields
the sentinel; every non-finite estimate yields the sentinel; every finite
estimate is formatted `HH:MM:SS` with the hours field omitted when the
hours are zero. -/
theorem progress_estimate_spec :
    (∀ (total : Nat) (elapsed : ℚ), 0 < total →
      build_progress_message 0 total elapsed =
        Nat.repr 0 ++ "/" ++ Nat.repr total ++
          "ページ完了　残り推定時間: " ++ "不明")
    ∧ format_duration PyF.inf = "不明"
    ∧ format_duration PyF.nan = "不明"
    ∧ (∀ (current total : Nat) (elapsed : ℚ), 0 < total → 0 < current →
      build_progress_message current total elapsed =
        Nat.repr current ++ "/" ++ Nat.repr total ++
          "ページ完了　残り推定時間: " ++
          format_duration
            (PyF.fin (elapsed / current * ((total - current : Nat) : ℚ))))
    ∧ (∀ q : ℚ,
        (0 < (max 0 (pyRound q)).toNat / 3600 →
          format_duration (PyF.fin q) =
            pad2 ((max 0 (pyRound q)).toNat / 3600) ++ ":" ++
            pad2 ((max 0 (pyRound q)).toNat / 60 % 60) ++ ":" ++
            pad2 ((max 0 (pyRound q)).toNat % 60))
        ∧ ((max 0 (pyRound q)).toNat / 3600 = 0 →
          format_duration (PyF.fin q) =
            pad2 ((max 0 (pyRound q)).toNat / 60 % 60) ++ ":" ++
            pad2 ((max 0 (pyRound q)).toNat % 60))) := by
  refine ⟨?_, rfl, rfl, ?_, ?_⟩
  · intro total elapsed ht
    obtain ⟨n, rfl⟩ :=
      Nat.exists_eq_succ_of_ne_zero (Nat.pos_iff_ne_zero.mp ht)
    simp [build_progress_message, pyMulNat, format_duration]
  · intro current total elapsed ht hc
    unfold build_progress_message
    rw [if_neg (by omega), if_pos (Nat.pos_iff_ne_zero.mp hc)]
    simp [pyMulNat]
  · intro q
    have h3600 : (max 0 (pyRound q)).toNat / 60 / 60 =
        (max 0 (pyRound q)).toNat / 3600 := by
      rw [Nat.div_div_eq_div_mul]
    constructor
    · intro hpos
      simp only [format_duration]
      rw [h3600, if_pos hpos]
    · intro hz
      simp only [format_duration]
      rw [h3600, if_neg (by omega)]

/-- Witness for C9: a three-page document with no pages completed yet shows
the unknown-remaining-time sentinel. -/
theorem progress_estimate_spec_witness :
    0 < 3 ∧ build_progress_message 0 3 10 =
      Nat.repr 0 ++ "/" ++ Nat.repr 3 ++
        "ページ完了　残り推定時間: " ++ "不明" :=
  ⟨by decide, progress_estimate_spec.1 3 10 (by decide)⟩

/-- Helper (spec-modelled): once the cancellation token is set and stays
set, the page loop stops at a boundary no later than the first set one,
with the cancelled outcome. -/
theorem pollPages_cancelled (cancelSet : Nat → Bool)
    (k : Nat) (hset : cancelSet k = true) :
    ∀ (rem done : Nat), done ≤ k → k < done + rem →
      (pollPages cancelSet done rem).2 = RunOutcome.cancelled ∧
      (pollPages cancelSet done rem).1 ≤ k := by
  intro rem
  induction rem with
  | zero =>
    intro done h1 h2
    omega
  | succ n ih =>
    intro done h1 h2
    by_cases hc : cancelSet done = true
    · simp [pollPages, hc, h1]
    · have hne : done ≠ k := fun he => hc (he ▸ hset)
      have hlt : done + 1 ≤ k := by omega
      have hres := ih (done + 1) hlt (by omega)
      simpa [pollPages, hc] using hres

/-- C6 (spec-modelled): with a caller-supplied cancellation token that is
set while the document is being processed, the run stops at the next page
boundary before the next page's OCR call, releases the document handles,
and terminates in the `cancelled` outcome, which is distinct from
`completed` and from the error outcome. -/
theorem run_cancellation_spec (cancelSet : Nat → Bool) (total k : Nat)
    (hmono : ∀ i j, i ≤ j → cancelSet i = true → cancelSet j = true)
    (hk : k < total) (hset : cancelSet k = true) :
    (runWithCancellation cancelSet total).outcome = RunOutcome.cancelled ∧
    (runWithCancellation cancelSet total).ocrCalls ≤ k ∧
    (runWithCancellation cancelSet total).docOpen = false ∧
    RunOutcome.cancelled ≠ RunOutcome.completed ∧
    RunOutcome.cancelled ≠ RunOutcome.failed := by
  have h := pollPages_cancelled cancelSet k hset total 0 (by omega)
    (by omega)
  exact ⟨h.1, h.2, rfl, by decide, by decide⟩

/-- Witness for C6: a token set after the first of three pages cancels the
run with at most one page OCR'd and the handles closed. -/
theorem run_cancellation_spec_witness :
    (∀ i j, i ≤ j → tokenAfterFirstPage i = true →
      tokenAfterFirstPage j = true) ∧
    1 < 3 ∧ tokenAfterFirstPage 1 = true ∧
    ((runWithCancellation tokenAfterFirstPage 3).outcome =
        RunOutcome.cancelled ∧
      (runWithCancellation tokenAfterFirstPage 3).ocrCalls ≤ 1 ∧
      (runWithCancellation tokenAfterFirstPage 3).docOpen = false ∧
      RunOutcome.cancelled ≠ RunOutcome.completed ∧
      RunOutcome.cancelled ≠ RunOutcome.failed) :=
  have hmono : ∀ i j, i ≤ j → tokenAfterFirstPage i = true →
      tokenAfterFirstPage j = true := by
    intro i j hij hi
    simp only [tokenAfterFirstPage, decide_eq_true_eq] at hi ⊢
    omega
  ⟨hmono, by decide, by decide,
    run_cancellation_spec tokenAfterFirstPage 3 1 hmono (by decide)
      (by decide)⟩

end ImagePdfOcr
